import Mathlib

set_option maxRecDepth 100000

/-!
Verification of the `WalletContractV4` core (src/improved-code-sample.ts)
against its specification (spec.md).

The TypeScript class is embedded shallowly: machine numbers become `Int`/`Nat`,
`Buffer` becomes `List Nat` (one entry per byte), thrown JavaScript errors
become `Except JsError`, optional (`Maybe`) arguments become `Option`, and the
asynchronous provider calls become explicit data (each wallet method returns
its result together with the ordered list of provider calls it performed).
The cell/bit-string layer (`beginCell`, `storeUint`, `storeBuffer`,
`storeBit`, `endCell`, readers) is imported by the source from `ton-core` and
is therefore modelled from the spec (sections 4.1 and 4.2); every such
definition is marked in its doc comment.
-/

/-- Error-kind taxonomy of spec section 7 (`ValidationError`, `RangeError`,
`CapacityError`, `TransportError`); the source throws plain `Error` objects,
modelled as kind `generic`. -/
inductive ErrKind where
  | validation
  | range
  | capacity
  | transport
  | generic
deriving DecidableEq, Repr

/-- A JavaScript error value: its spec-section-7 kind and its message. -/
structure JsError where
  kind : ErrKind
  message : String
deriving DecidableEq, Repr

/-- The re-throw pattern of the source, `new Error(ctx + error.message)`:
the result is a fresh generic error whose message prefixes a context string
to the original message. -/
def wrapErr (ctx : String) (e : JsError) : JsError :=
  { kind := ErrKind.generic, message := ctx ++ e.message }

/-- Big-endian (MSB-first) encoding of a natural number into `n` bits,
per spec section 4.1 (`writeUint`). -/
def natToBits : Nat → Nat → List Bool
  | 0, _ => []
  | n + 1, v => natToBits n (v / 2) ++ [v % 2 == 1]

/-- MSB-first decoding of a bit list back into a natural number,
per spec section 4.1 (`readUint`). -/
def bitsToNat (bits : List Bool) : Nat :=
  bits.foldl (fun acc b => 2 * acc + (if b then 1 else 0)) 0

/-- MSB-first concatenation of the bits of a byte sequence,
per spec section 4.1 (`writeBuffer`). -/
def bytesToBits : List Nat → List Bool
  | [] => []
  | b :: bs => natToBits 8 b ++ bytesToBits bs

/-- A cell: a bit payload plus ordered references to child cells
(spec section 3). -/
inductive Cell where
  | mk (bits : List Bool) (refs : List Cell)

/-- Payload bits of a cell. -/
def Cell.bits : Cell → List Bool
  | .mk b _ => b

/-- Child references of a cell. -/
def Cell.refs : Cell → List Cell
  | .mk _ r => r

/-- Modelled from the spec: the mutable `ton-core` cell builder behind
`beginCell()` (spec section 4.2); accumulated bits and references. -/
structure Builder where
  bits : List Bool
  refs : List Cell

/-- Modelled from the spec: `beginCell()` starts with an empty builder. -/
def beginCell : Builder := { bits := [], refs := [] }

/-- Modelled from the spec: `storeUint(value, bits)` appends the MSB-first
encoding, failing with `RangeError` when the value does not fit or when the
1023-bit cell capacity would be exceeded (spec sections 4.1 and 4.2). -/
def storeUint (v : Int) (n : Nat) (b : Builder) : Except JsError Builder :=
  if v < 0 ∨ (2 : Int) ^ n ≤ v then
    Except.error { kind := ErrKind.range, message := "value does not fit in bits" }
  else if 1023 < b.bits.length + n then
    Except.error { kind := ErrKind.capacity, message := "cell capacity exceeded" }
  else
    Except.ok { b with bits := b.bits ++ natToBits n v.toNat }

/-- Modelled from the spec: `storeBuffer(bytes)` appends the bytes MSB-first
(spec section 4.1), failing on capacity overflow. -/
def storeBuffer (bytes : List Nat) (b : Builder) : Except JsError Builder :=
  if 1023 < b.bits.length + 8 * bytes.length then
    Except.error { kind := ErrKind.capacity, message := "cell capacity exceeded" }
  else
    Except.ok { b with bits := b.bits ++ bytesToBits bytes }

/-- Modelled from the spec: `storeBit(b)` appends a single bit. -/
def storeBit (bit : Bool) (b : Builder) : Except JsError Builder :=
  if 1023 < b.bits.length + 1 then
    Except.error { kind := ErrKind.capacity, message := "cell capacity exceeded" }
  else
    Except.ok { b with bits := b.bits ++ [bit] }

/-- Modelled from the spec: `endCell()` finalizes the builder into an
immutable cell, failing with an overflow error past 1023 bits
(spec section 4.2). -/
def endCell (b : Builder) : Except JsError Cell :=
  if 1023 < b.bits.length then
    Except.error { kind := ErrKind.capacity, message := "cell capacity exceeded" }
  else
    Except.ok (Cell.mk b.bits b.refs)

/-- Modelled from the spec: `readUint(bits)` reads `n` bits MSB-first at the
cursor, failing with `RangeError` when fewer than `n` bits remain
(spec section 4.1). -/
def readUint (n : Nat) (bits : List Bool) : Except JsError (Nat × List Bool) :=
  if bits.length < n then
    Except.error { kind := ErrKind.range, message := "not enough bits" }
  else
    Except.ok (bitsToNat (bits.take n), bits.drop n)

/-- Modelled from the spec: reading `count` bytes is `count` successive
8-bit unsigned reads (spec section 4.1). -/
def readBytes : Nat → List Bool → Except JsError (List Nat × List Bool)
  | 0, bits => Except.ok ([], bits)
  | k + 1, bits => do
    let (byte, rest) ← readUint 8 bits
    let (bytes, restF) ← readBytes k rest
    Except.ok (byte :: bytes, restF)

/-- Modelled from the spec: reading a single bit at the cursor. -/
def readBit (bits : List Bool) : Except JsError (Bool × List Bool) :=
  match bits with
  | [] => Except.error { kind := ErrKind.range, message := "not enough bits" }
  | b :: rest => Except.ok (b, rest)

/-- Modelled from the spec: padding of a cell payload to a byte boundary with
a completion tag, a single 1-bit followed by 0-bits (spec section 4.3). -/
def padBits (bits : List Bool) : List Bool :=
  if bits.length % 8 = 0 then bits
  else bits ++ true :: List.replicate (7 - bits.length % 8) false

/-- Numeric view of a bit, used by the canonical cell representation. -/
def bitVal (b : Bool) : Nat := if b then 1 else 0

mutual

/-- Modelled from the spec: the cell hash of spec section 4.3, a digest over
cell metadata, the padded payload, and the children hashes in ref order.
The cryptographic compression step is outside the repository; the digest is
modelled as the canonical pre-image itself (metadata, padded bits, recursive
children hashes), which preserves the determinism and structural-equality
properties the claims use. -/
def cellHash : Cell → List Nat
  | Cell.mk bits refs =>
    bits.length :: refs.length :: ((padBits bits).map bitVal ++ cellHashList refs)

/-- Children hashes concatenated in ref order (helper for `cellHash`). -/
def cellHashList : List Cell → List Nat
  | [] => []
  | c :: cs => cellHash c ++ cellHashList cs

end

/-- Modelled from the spec: the state-init cell of spec section 4.5 — flag
bits (no split depth, not special, has code, has data, no library) followed
by a ref to the code cell and a ref to the data cell. -/
def stateInitCell (code data : Cell) : Cell :=
  Cell.mk [false, false, true, true, false] [code, data]

/-- A derived contract address: workchain plus the 256-bit digest of the
state-init cell (spec section 3, `Address`). -/
structure Address where
  workchain : Int
  hash : List Nat
deriving Repr

/-- Modelled from the spec: deterministic address derivation of spec
section 4.5, hashing the state-init cell built from the code and data pair. -/
def contractAddress (workchain : Int) (code data : Cell) : Address :=
  { workchain := workchain, hash := cellHash (stateInitCell code data) }

/-- Modelled from the spec: the wallet's fixed embedded code cell (spec
section 6, "Embedded constant", decoded from the `WALLET_CODE_BASE64`
constant of the source). The BOC decoding of that blob lives in `ton-core`,
outside this repository, and no claim inspects the code cell's contents, so
it is modelled as a fixed constant cell. -/
def walletCode : Cell := Cell.mk [true] []

/-- `WalletContractV4.buildData` (src/improved-code-sample.ts, lines 90-101):
seqno 0 as 32 bits, the wallet id as 32 bits, the 32 public-key bytes, one
0 bit for the empty plugins dict; any builder error is re-thrown wrapped. -/
def buildData (walletId : Int) (publicKey : List Nat) : Except JsError Cell :=
  match (do
      let b := beginCell
      let b ← storeUint 0 32 b
      let b ← storeUint walletId 32 b
      let b ← storeBuffer publicKey b
      let b ← storeBit false b
      endCell b : Except JsError Cell) with
  | Except.error e => Except.error (wrapErr "Failed to build data cell: " e)
  | Except.ok c => Except.ok c

/-- The `init` field of the wallet: its code and data cells. -/
structure StateInit where
  code : Cell
  data : Cell

/-- The immutable wallet descriptor produced by `WalletContractV4.create`. -/
structure Wallet where
  workchain : Int
  publicKey : List Nat
  walletId : Int
  address : Address
  init : StateInit

/-- `WalletContractV4.create` / the private constructor
(src/improved-code-sample.ts, lines 27-70): validates the workchain and the
public key, resolves the wallet id with the `?? (698983191 + workchain)`
default, builds the code and data cells and derives the address. -/
def create (workchain : Int) (publicKey : Option (List Nat))
    (walletId : Option Int) : Except JsError Wallet :=
  if workchain < -1 ∨ 0 < workchain then
    Except.error
      { kind := ErrKind.validation, message := "Invalid workchain ID: must be -1 or 0" }
  else
    match publicKey with
    | none =>
      Except.error
        { kind := ErrKind.validation, message := "Invalid public key: must be 32 bytes" }
    | some pk =>
      if pk.length ≠ 32 then
        Except.error
          { kind := ErrKind.validation, message := "Invalid public key: must be 32 bytes" }
      else
        let wid := walletId.getD (698983191 + workchain)
        let code := walletCode
        match buildData wid pk with
        | Except.error e => Except.error e
        | Except.ok data =>
          Except.ok
            { workchain := workchain
              publicKey := pk
              walletId := wid
              address := contractAddress workchain code data
              init := { code := code, data := data } }

/-- The wallet-state reader of spec section 3: 32-bit seqno, 32-bit wallet
id, 32 key bytes, the plugins-empty flag bit. -/
def loadWalletData (c : Cell) : Except JsError (Nat × Nat × List Nat × Bool) := do
  let (seqno, r1) ← readUint 32 c.bits
  let (wid, r2) ← readUint 32 r1
  let (pk, r3) ← readBytes 32 r2
  let (flag, _) ← readBit r3
  Except.ok (seqno, wid, pk, flag)

/-- Nested account-state descriptor returned by the provider
(`state.state.type` in the source; spec section 6). -/
structure StateDesc where
  type : String

/-- The provider's `getState()` result: balance plus state descriptor. -/
structure ContractState where
  balance : Int
  state : StateDesc

/-- The provider's `get(method, args)` result: a TVM stack, modelled as the
list of its numeric items. -/
structure GetResult where
  stack : List Int

/-- One external provider call, recorded in order by the wallet methods. -/
inductive PCall where
  | getState
  | get (method : String)
  | externalMsg
deriving DecidableEq, Repr

/-- The external state provider (spec section 6): each method's single-shot
response, success or failure. -/
structure Provider where
  getStateResp : Except JsError ContractState
  getResp : String → List Int → Except JsError GetResult
  externalResp : Cell → Except JsError Unit

/-- `TupleReader.readNumber` of `ton-core`, modelled from the spec: pops the
first stack item, failing on an empty stack. -/
def readNumber (stack : List Int) : Except JsError Int :=
  match stack with
  | [] => Except.error { kind := ErrKind.generic, message := "Stack is empty" }
  | n :: _ => Except.ok n

/-- `WalletContractV4.getBalance` (src/improved-code-sample.ts, lines
108-115), with the ordered provider-call trace made explicit: one
`getState()` call; a provider failure is re-thrown wrapped. -/
def getBalanceT (p : Provider) : Except JsError Int × List PCall :=
  match p.getStateResp with
  | Except.error e => (Except.error (wrapErr "Failed to get balance: " e), [PCall.getState])
  | Except.ok st => (Except.ok st.balance, [PCall.getState])

/-- `WalletContractV4.getSeqno` (src/improved-code-sample.ts, lines
122-134), with the ordered provider-call trace made explicit: `getState()`,
then — only for an active contract — `get("seqno", [])` and a stack read;
any failure is re-thrown wrapped. -/
def getSeqnoT (p : Provider) : Except JsError Int × List PCall :=
  match p.getStateResp with
  | Except.error e => (Except.error (wrapErr "Failed to get seqno: " e), [PCall.getState])
  | Except.ok st =>
    if st.state.type = "active" then
      match p.getResp "seqno" [] with
      | Except.error e =>
        (Except.error (wrapErr "Failed to get seqno: " e), [PCall.getState, PCall.get "seqno"])
      | Except.ok res =>
        match readNumber res.stack with
        | Except.error e =>
          (Except.error (wrapErr "Failed to get seqno: " e), [PCall.getState, PCall.get "seqno"])
        | Except.ok n => (Except.ok n, [PCall.getState, PCall.get "seqno"])
    else
      (Except.ok 0, [PCall.getState])

/-- `WalletContractV4.send` (src/improved-code-sample.ts, lines 142-148),
with the ordered provider-call trace made explicit: one `external(message)`
call; a provider failure is re-thrown wrapped. -/
def sendT (p : Provider) (message : Cell) : Except JsError Unit × List PCall :=
  match p.externalResp message with
  | Except.error e => (Except.error (wrapErr "Failed to send message: " e), [PCall.externalMsg])
  | Except.ok _ => (Except.ok (), [PCall.externalMsg])

/-- A relaxed message, opaque to the wallet core (spec section 1 puts
message semantics out of scope); modelled as an abstract identifier. -/
def MessageRelaxed : Type := Nat

/-- The `ton-core` `SendMode.PAY_GAS_SEPARATELY` flag value. -/
def PAY_GAS_SEPARATELY : Int := 1

/-- Arguments of `WalletContractV4.createTransfer`; `secretKey` and
`messages` are optional here because the source guards against a missing
value at runtime (`!args.secretKey`, `!args.messages`). -/
structure TransferArgs where
  seqno : Int
  secretKey : Option (List Nat)
  messages : Option (List MessageRelaxed)
  sendMode : Option Int
  timeout : Option Int

/-- The argument record handed to the external signer
`createWalletTransferV4` (spec section 6, "External signer"). -/
structure SignerArgs where
  seqno : Int
  sendMode : Int
  secretKey : List Nat
  messages : List MessageRelaxed
  timeout : Option Int
  walletId : Int

/-- `WalletContractV4.createTransfer` (src/improved-code-sample.ts, lines
185-212): validates the secret key and messages, defaults the send mode
with `?? SendMode.PAY_GAS_SEPARATELY`, and delegates to the external signer,
returning its cell unmodified. The signer is a parameter of the embedding. -/
def createTransfer (signer : SignerArgs → Cell) (w : Wallet)
    (a : TransferArgs) : Except JsError Cell :=
  match a.secretKey with
  | none =>
    Except.error
      { kind := ErrKind.validation, message := "Invalid secret key: must be 64 bytes" }
  | some sk =>
    if sk.length ≠ 64 then
      Except.error
        { kind := ErrKind.validation, message := "Invalid secret key: must be 64 bytes" }
    else
      match a.messages with
      | none => Except.error { kind := ErrKind.validation, message := "No messages to send" }
      | some ms =>
        if ms.length = 0 then
          Except.error { kind := ErrKind.validation, message := "No messages to send" }
        else
          Except.ok
            (signer
              { seqno := a.seqno
                sendMode := a.sendMode.getD PAY_GAS_SEPARATELY
                secretKey := sk
                messages := ms
                timeout := a.timeout
                walletId := w.walletId })

/-- Bit encoding is `n` bits long. -/
theorem natToBits_length (n v : Nat) : (natToBits n v).length = n := by
  induction n generalizing v with
  | zero => rfl
  | succ k ih => simp [natToBits, ih]

/-- Appending one bit doubles the decoded value and adds the bit. -/
theorem bitsToNat_append_bit (l : List Bool) (b : Bool) :
    bitsToNat (l ++ [b]) = 2 * bitsToNat l + (if b then 1 else 0) := by
  simp [bitsToNat, List.foldl_append]

/-- Decoding is the inverse of encoding for values that fit. -/
theorem bitsToNat_natToBits (n v : Nat) (h : v < 2 ^ n) :
    bitsToNat (natToBits n v) = v := by
  induction n generalizing v with
  | zero =>
    have hv : v = 0 := by simpa using Nat.lt_one_iff.mp h
    subst hv
    rfl
  | succ k ih =>
    have hv : v / 2 < 2 ^ k := by
      have hp : 2 ^ (k + 1) = 2 * 2 ^ k := by ring
      omega
    rw [natToBits, bitsToNat_append_bit, ih _ hv]
    rcases Nat.mod_two_eq_zero_or_one v with h0 | h1
    · simp [h0]
      omega
    · simp [h1]
      omega

/-- A byte sequence encodes to eight bits per byte. -/
theorem bytesToBits_length (bytes : List Nat) :
    (bytesToBits bytes).length = 8 * bytes.length := by
  induction bytes with
  | nil => rfl
  | cons b bs ih => simp [bytesToBits, natToBits_length, ih]; ring

/-- Reading `n` bits from an encoded value followed by anything recovers the
value and leaves the rest. -/
theorem readUint_encode (n v : Nat) (rest : List Bool) (hv : v < 2 ^ n) :
    readUint n (natToBits n v ++ rest) = Except.ok (v, rest) := by
  have hlen : (natToBits n v).length = n := natToBits_length n v
  unfold readUint
  rw [if_neg (by simp [hlen])]
  rw [List.take_left' hlen, List.drop_left' hlen, bitsToNat_natToBits n v hv]

/-- Reading back a stored byte sequence recovers the bytes and leaves the
rest. -/
theorem readBytes_encode (bytes : List Nat) (rest : List Bool)
    (hb : ∀ b ∈ bytes, b < 256) :
    readBytes bytes.length (bytesToBits bytes ++ rest) = Except.ok (bytes, rest) := by
  induction bytes with
  | nil => simp [bytesToBits, readBytes]
  | cons x xs ih =>
    have hx : x < 256 := hb x (List.mem_cons_self x xs)
    have hxs : ∀ b ∈ xs, b < 256 := fun b h => hb b (List.mem_cons_of_mem x h)
    show readBytes (xs.length + 1) ((natToBits 8 x ++ bytesToBits xs) ++ rest) = _
    rw [List.append_assoc]
    rw [readBytes]
    rw [readUint_encode 8 x _ (by omega)]
    simp [bind, Except.bind, ih hxs]

/-- The wallet-state bit layout claimed by the spec (section 3): seqno 0 in
32 bits, the wallet id in 32 bits, the key bytes, a single 0 bit. -/
def walletDataBits (wid : Nat) (pk : List Nat) : List Bool :=
  natToBits 32 0 ++ natToBits 32 wid ++ bytesToBits pk ++ [false]

/-- With an in-range wallet id and a 32-byte key, `buildData` succeeds and
produces exactly the claimed bit layout with no references. -/
theorem buildData_ok (wid : Int) (pk : List Nat) (h0 : 0 ≤ wid)
    (h1 : wid < 2 ^ 32) (hpk : pk.length = 32) :
    buildData wid pk = Except.ok (Cell.mk (walletDataBits wid.toNat pk) []) := by
  have hpow : (2 : Int) ^ 32 = 4294967296 := by norm_num
  have hc1 : ¬ ((0 : Int) < 0 ∨ (2 : Int) ^ 32 ≤ 0) := by norm_num
  have hc2 : ¬ (wid < 0 ∨ (4294967296 : Int) ≤ wid) := by
    push_neg
    exact ⟨h0, by omega⟩
  simp [buildData, beginCell, storeUint, storeBuffer, storeBit, endCell, bind,
    Except.bind, hc1, hc2, natToBits_length, bytesToBits_length, hpk,
    walletDataBits]

/-- On a valid workchain and a 32-byte key, with the resolved wallet id in
32-bit range, `create` succeeds with the wallet descriptor the source
constructs. -/
theorem create_ok (w : Int) (pk : List Nat) (widO : Option Int)
    (hw : w = -1 ∨ w = 0) (hpk : pk.length = 32)
    (h0 : 0 ≤ widO.getD (698983191 + w))
    (h1 : widO.getD (698983191 + w) < 2 ^ 32) :
    create w (some pk) widO =
      Except.ok
        { workchain := w
          publicKey := pk
          walletId := widO.getD (698983191 + w)
          address :=
            contractAddress w walletCode
              (Cell.mk (walletDataBits (widO.getD (698983191 + w)).toNat pk) [])
          init :=
            { code := walletCode
              data := Cell.mk (walletDataBits (widO.getD (698983191 + w)).toNat pk) [] } } := by
  have hcw : ¬ (w < -1 ∨ 0 < w) := by
    rcases hw with h | h <;> simp [h]
  simp [create, hcw, hpk, buildData_ok _ pk h0 h1 hpk]

/-- The all-zero 32-byte public key used by the concrete examples. -/
def zeroKey : List Nat := List.replicate 32 0

/-- A placeholder wallet for impossible fallback branches. -/
def dummyWallet : Wallet :=
  { workchain := 0
    publicKey := []
    walletId := 0
    address := { workchain := 0, hash := [] }
    init := { code := walletCode, data := walletCode } }

/-- The wallet produced by `create` on workchain 0 with the all-zero key and
the wallet id omitted. -/
def sampleWallet0 : Wallet :=
  match create 0 (some zeroKey) none with
  | Except.ok w => w
  | Except.error _ => dummyWallet

/-- The wallet produced by `create` on workchain -1 with the all-zero key and
the wallet id omitted. -/
def sampleWalletM1 : Wallet :=
  match create (-1) (some zeroKey) none with
  | Except.ok w => w
  | Except.error _ => dummyWallet

/-- Whether a result is a failure of spec-section-7 kind `ValidationError`. -/
def isValidationError {α : Type} (r : Except JsError α) : Bool :=
  match r with
  | Except.error e => e.kind == ErrKind.validation
  | Except.ok _ => false

/-- C1: for every workchain in {-1, 0} and 32-byte public key (and a wallet
id in 32-bit range), the data cell of the wallet returned by `create` stores,
in order, the 32-bit integer 0, the 32-bit wallet id, the 32 key bytes and a
single 0 bit, and decodes back to exactly those values; with the wallet id
omitted it is `698983191 + workchain`, hence 698983191 on workchain 0. -/
theorem claim1_data_cell_layout (w : Int) (pk : List Nat) (widO : Option Int)
    (wa : Wallet) (hw : w = -1 ∨ w = 0) (hpk : pk.length = 32)
    (hbytes : ∀ b ∈ pk, b < 256)
    (h0 : 0 ≤ widO.getD (698983191 + w))
    (h1 : widO.getD (698983191 + w) < 2 ^ 32)
    (hok : create w (some pk) widO = Except.ok wa) :
    wa.init.data = Cell.mk (walletDataBits (widO.getD (698983191 + w)).toNat pk) [] ∧
      loadWalletData wa.init.data =
        Except.ok (0, (widO.getD (698983191 + w)).toNat, pk, false) := by
  rw [create_ok w pk widO hw hpk h0 h1] at hok
  have hwa := Except.ok.inj hok
  subst hwa
  refine ⟨rfl, ?_⟩
  have hwid : (widO.getD (698983191 + w)).toNat < 2 ^ 32 := by
    have hp : (2 : Int) ^ 32 = 4294967296 := by norm_num
    have hq : (2 : Nat) ^ 32 = 4294967296 := by norm_num
    omega
  have hbits :
      (Cell.mk (walletDataBits (widO.getD (698983191 + w)).toNat pk) []).bits =
        natToBits 32 0 ++
          (natToBits 32 (widO.getD (698983191 + w)).toNat ++ (bytesToBits pk ++ [false])) := by
    simp [Cell.bits, walletDataBits, List.append_assoc]
  have hrb : readBytes 32 (bytesToBits pk ++ [false]) = Except.ok (pk, [false]) := by
    have h := readBytes_encode pk [false] hbytes
    rwa [hpk] at h
  simp [loadWalletData, hbits, bind, Except.bind,
    readUint_encode 32 0 _ (by norm_num),
    readUint_encode 32 _ _ hwid, hrb, readBit]

/-- C1 witness: workchain 0, all-zero key, wallet id omitted — the data cell
has the claimed layout and decodes to seqno 0, wallet id 698983191, the 32
zero bytes, and a 0 plugins flag. -/
theorem claim1_data_cell_layout_witness :
    sampleWallet0.init.data = Cell.mk (walletDataBits 698983191 zeroKey) [] ∧
      loadWalletData sampleWallet0.init.data =
        Except.ok (0, 698983191, zeroKey, false) := by
  have hok : create 0 (some zeroKey) none = Except.ok sampleWallet0 := rfl
  have h := claim1_data_cell_layout 0 zeroKey none sampleWallet0 (Or.inr rfl)
    (by simp [zeroKey]) (by simp [zeroKey]) (by norm_num) (by norm_num) hok
  simpa using h

/-- C2: with the wallet id omitted, the wallet returned by `create` has
wallet id `698983191 + workchain`. -/
theorem claim2_default_wallet_id (w : Int) (pk : List Nat) (wa : Wallet)
    (hw : w = -1 ∨ w = 0) (hpk : pk.length = 32)
    (hok : create w (some pk) none = Except.ok wa) :
    wa.walletId = 698983191 + w := by
  have h0 : 0 ≤ (none : Option Int).getD (698983191 + w) := by
    rcases hw with h | h <;> simp [h]
  have h1 : (none : Option Int).getD (698983191 + w) < 2 ^ 32 := by
    rcases hw with h | h <;> simp [h]
  rw [create_ok w pk none hw hpk h0 h1] at hok
  rw [← Except.ok.inj hok]
  simp

/-- C2 witness: `create(-1, <32 zero bytes>, undefined)` yields wallet id
698983190. -/
theorem claim2_default_wallet_id_witness : sampleWalletM1.walletId = 698983190 := by
  have h := claim2_default_wallet_id (-1) zeroKey sampleWalletM1 (Or.inl rfl)
    (by simp [zeroKey]) rfl
  norm_num at h
  exact h

/-- C4: any workchain other than -1 and 0 makes `create` fail with the
validation error "Invalid workchain ID", returning no wallet. -/
theorem claim4_invalid_workchain (w : Int) (pk : Option (List Nat))
    (widO : Option Int) (h1 : w ≠ -1) (h2 : w ≠ 0) :
    create w pk widO =
      Except.error
        { kind := ErrKind.validation, message := "Invalid workchain ID: must be -1 or 0" } := by
  have hcw : w < -1 ∨ 0 < w := by omega
  simp [create, hcw]

/-- C4 witness: workchain 1 is rejected with the validation error. -/
theorem claim4_invalid_workchain_witness :
    create 1 (some zeroKey) none =
      Except.error
        { kind := ErrKind.validation, message := "Invalid workchain ID: must be -1 or 0" } :=
  claim4_invalid_workchain 1 (some zeroKey) none (by norm_num) (by norm_num)

/-- C5: on a valid workchain, a missing public key or one whose length is not
32 bytes makes `create` fail with the validation error "Invalid public key",
returning no wallet. -/
theorem claim5_invalid_public_key (w : Int) (pk : Option (List Nat))
    (widO : Option Int) (hw : w = -1 ∨ w = 0)
    (hpk : pk = none ∨ ∃ l, pk = some l ∧ l.length ≠ 32) :
    create w pk widO =
      Except.error
        { kind := ErrKind.validation, message := "Invalid public key: must be 32 bytes" } := by
  have hcw : ¬ (w < -1 ∨ 0 < w) := by
    rcases hw with h | h <;> simp [h]
  rcases hpk with h | ⟨l, hl, hlen⟩
  · subst h
    simp [create, hcw]
  · subst hl
    simp [create, hcw, hlen]

/-- C5 witness: a 31-byte key on workchain 0 is rejected with the validation
error. -/
theorem claim5_invalid_public_key_witness :
    create 0 (some (List.replicate 31 0)) none =
      Except.error
        { kind := ErrKind.validation, message := "Invalid public key: must be 32 bytes" } :=
  claim5_invalid_public_key 0 (some (List.replicate 31 0)) none (Or.inr rfl)
    (Or.inr ⟨List.replicate 31 0, rfl, by simp⟩)

/-- C8: `create` is deterministic — two calls with identical inputs yield
wallets with identical wallet id, identical code and data cells, and
identical address; the embedding of the constructor is a pure function with
no randomness or time dependency. -/
theorem claim8_create_deterministic (w : Int) (pk : Option (List Nat))
    (widO : Option Int) (w1 w2 : Wallet)
    (h1 : create w pk widO = Except.ok w1)
    (h2 : create w pk widO = Except.ok w2) :
    w1.walletId = w2.walletId ∧ w1.init.code = w2.init.code ∧
      w1.init.data = w2.init.data ∧ w1.address = w2.address := by
  rw [h1] at h2
  have h := Except.ok.inj h2
  subst h
  exact ⟨rfl, rfl, rfl, rfl⟩

/-- C8 witness: two evaluations of `create` on workchain 0 with the all-zero
key agree on wallet id, code, data and address. -/
theorem claim8_create_deterministic_witness :
    sampleWallet0.walletId = sampleWallet0.walletId ∧
      sampleWallet0.init.code = sampleWallet0.init.code ∧
      sampleWallet0.init.data = sampleWallet0.init.data ∧
      sampleWallet0.address = sampleWallet0.address :=
  claim8_create_deterministic 0 (some zeroKey) none sampleWallet0 sampleWallet0 rfl rfl

/-- An arbitrary opaque message used by the concrete examples. -/
def msg0 : MessageRelaxed := (0 : Nat)

/-- The all-zero 64-byte secret key used by the concrete examples. -/
def sk64 : List Nat := List.replicate 64 0

/-- A concrete external signer for the examples; it encodes the wallet id
and send mode it receives into the output cell, making pass-through
observable. -/
def probeSigner : SignerArgs → Cell :=
  fun s => Cell.mk (natToBits 32 s.walletId.toNat ++ natToBits 32 s.sendMode.toNat) []

/-- C6: `createTransfer` fails with a validation error whenever the secret
key is missing or not 64 bytes, or the messages list is missing or empty;
the result does not depend on the external signer, so the signer is never
invoked. -/
theorem claim6_transfer_validation (w : Wallet) (a : TransferArgs)
    (h : (a.secretKey = none ∨ ∃ sk, a.secretKey = some sk ∧ sk.length ≠ 64) ∨
         (a.messages = none ∨ a.messages = some [])) :
    (∀ s1 s2 : SignerArgs → Cell, createTransfer s1 w a = createTransfer s2 w a) ∧
      ∀ signer : SignerArgs → Cell, isValidationError (createTransfer signer w a) = true := by
  cases hsk : a.secretKey with
  | none =>
    refine ⟨fun s1 s2 => ?_, fun signer => ?_⟩
    · simp [createTransfer, hsk]
    · simp [createTransfer, hsk, isValidationError]
  | some sk =>
    by_cases hlen : sk.length = 64
    · have hm : a.messages = none ∨ a.messages = some [] := by
        rcases h with hs | hm
        · rcases hs with hnone | ⟨sk2, hsk2, hlen2⟩
          · rw [hsk] at hnone
            cases hnone
          · rw [hsk] at hsk2
            have hsks : sk = sk2 := by
              injection hsk2
            exact absurd hlen (by rw [hsks]; exact hlen2)
        · exact hm
      rcases hm with hm | hm
      · refine ⟨fun s1 s2 => ?_, fun signer => ?_⟩
        · simp [createTransfer, hsk, hlen, hm]
        · simp [createTransfer, hsk, hlen, hm, isValidationError]
      · refine ⟨fun s1 s2 => ?_, fun signer => ?_⟩
        · simp [createTransfer, hsk, hlen, hm]
        · simp [createTransfer, hsk, hlen, hm, isValidationError]
    · refine ⟨fun s1 s2 => ?_, fun signer => ?_⟩
      · simp [createTransfer, hsk, hlen]
      · simp [createTransfer, hsk, hlen, isValidationError]

/-- C6 witness: a missing secret key yields a validation error with any
signer. -/
theorem claim6_transfer_validation_witness :
    isValidationError (createTransfer probeSigner dummyWallet
      { seqno := 0, secretKey := none, messages := some [msg0],
        sendMode := none, timeout := none }) = true :=
  (claim6_transfer_validation dummyWallet
    { seqno := 0, secretKey := none, messages := some [msg0],
      sendMode := none, timeout := none } (Or.inl (Or.inl rfl))).2 probeSigner

/-- C7: on a 64-byte secret key and non-empty messages, `createTransfer`
returns exactly the signer's cell, passing the caller's seqno, secret key,
messages and timeout together with the wallet's own wallet id (and the
resolved send mode). -/
theorem claim7_transfer_passthrough (signer : SignerArgs → Cell) (w : Wallet)
    (a : TransferArgs) (sk : List Nat) (ms : List MessageRelaxed)
    (hsk : a.secretKey = some sk) (hlen : sk.length = 64)
    (hms : a.messages = some ms) (hne : ms ≠ []) :
    createTransfer signer w a =
      Except.ok (signer
        { seqno := a.seqno
          sendMode := a.sendMode.getD PAY_GAS_SEPARATELY
          secretKey := sk
          messages := ms
          timeout := a.timeout
          walletId := w.walletId }) := by
  simp [createTransfer, hsk, hlen, hms, hne]

/-- C7 witness: a concrete valid transfer returns the signer's cell built
from the passed-through arguments. -/
theorem claim7_transfer_passthrough_witness :
    createTransfer probeSigner dummyWallet
        { seqno := 1, secretKey := some sk64, messages := some [msg0],
          sendMode := none, timeout := none } =
      Except.ok (probeSigner
        { seqno := 1, sendMode := PAY_GAS_SEPARATELY, secretKey := sk64,
          messages := [msg0], timeout := none, walletId := dummyWallet.walletId }) := by
  have h := claim7_transfer_passthrough probeSigner dummyWallet
    { seqno := 1, secretKey := some sk64, messages := some [msg0],
      sendMode := none, timeout := none } sk64 [msg0] rfl (by simp [sk64]) rfl (by simp)
  simpa using h

/-- C10: on valid transfer input, an omitted send mode is passed to the
signer as `PAY_GAS_SEPARATELY`, while a provided send mode is passed through
unchanged. -/
theorem claim10_send_mode_default (signer : SignerArgs → Cell) (w : Wallet)
    (a : TransferArgs) (sk : List Nat) (ms : List MessageRelaxed)
    (hsk : a.secretKey = some sk) (hlen : sk.length = 64)
    (hms : a.messages = some ms) (hne : ms ≠ []) :
    (a.sendMode = none →
      createTransfer signer w a =
        Except.ok (signer
          { seqno := a.seqno, sendMode := PAY_GAS_SEPARATELY, secretKey := sk,
            messages := ms, timeout := a.timeout, walletId := w.walletId })) ∧
    (∀ m : Int, a.sendMode = some m →
      createTransfer signer w a =
        Except.ok (signer
          { seqno := a.seqno, sendMode := m, secretKey := sk,
            messages := ms, timeout := a.timeout, walletId := w.walletId })) := by
  constructor
  · intro hsm
    simp [createTransfer, hsk, hlen, hms, hne, hsm]
  · intro m hsm
    simp [createTransfer, hsk, hlen, hms, hne, hsm]

/-- C10 witness: with the send mode omitted the signer receives
`PAY_GAS_SEPARATELY`; with send mode 3 it receives 3. -/
theorem claim10_send_mode_default_witness :
    createTransfer probeSigner dummyWallet
        { seqno := 2, secretKey := some sk64, messages := some [msg0],
          sendMode := none, timeout := some 60 } =
      Except.ok (probeSigner
        { seqno := 2, sendMode := PAY_GAS_SEPARATELY, secretKey := sk64,
          messages := [msg0], timeout := some 60, walletId := dummyWallet.walletId }) ∧
    createTransfer probeSigner dummyWallet
        { seqno := 2, secretKey := some sk64, messages := some [msg0],
          sendMode := some 3, timeout := some 60 } =
      Except.ok (probeSigner
        { seqno := 2, sendMode := 3, secretKey := sk64,
          messages := [msg0], timeout := some 60, walletId := dummyWallet.walletId }) := by
  constructor
  · exact (claim10_send_mode_default probeSigner dummyWallet
      { seqno := 2, secretKey := some sk64, messages := some [msg0],
        sendMode := none, timeout := some 60 } sk64 [msg0] rfl (by simp [sk64]) rfl
      (by simp)).1 rfl
  · exact (claim10_send_mode_default probeSigner dummyWallet
      { seqno := 2, secretKey := some sk64, messages := some [msg0],
        sendMode := some 3, timeout := some 60 } sk64 [msg0] rfl (by simp [sk64]) rfl
      (by simp)).2 3 rfl

/-- A provider whose contract is not active: `getState()` succeeds with a
non-active state; its `get` method is never expected to run. -/
def pInactive : Provider :=
  { getStateResp := Except.ok { balance := 100, state := { type := "uninitialized" } }
    getResp := fun _ _ => Except.error { kind := ErrKind.generic, message := "unreachable" }
    externalResp := fun _ => Except.ok () }

/-- A provider whose contract is active and whose `seqno` get-method returns
a stack holding 5. -/
def pActive : Provider :=
  { getStateResp := Except.ok { balance := 100, state := { type := "active" } }
    getResp := fun m _ =>
      if m = "seqno" then Except.ok { stack := [5] }
      else Except.error { kind := ErrKind.generic, message := "unknown method" }
    externalResp := fun _ => Except.ok () }

/-- C9: when `getState()` succeeds with a non-active state, `getSeqno`
returns 0 and its provider-call trace holds only the `getState` call — the
`get("seqno")` method is never invoked; when the state is active, the seqno
is read from the head of the `seqno` get-method's result stack. -/
theorem claim9_seqno_state_gate (p : Provider) (st : ContractState)
    (hst : p.getStateResp = Except.ok st) :
    (st.state.type ≠ "active" → getSeqnoT p = (Except.ok 0, [PCall.getState])) ∧
    (∀ r n rest, st.state.type = "active" → p.getResp "seqno" [] = Except.ok r →
      r.stack = n :: rest →
      getSeqnoT p = (Except.ok n, [PCall.getState, PCall.get "seqno"])) := by
  constructor
  · intro hna
    simp [getSeqnoT, hst, hna]
  · intro r n rest ha hg hs
    simp [getSeqnoT, hst, ha, hg, readNumber, hs]

/-- C9 witness: the non-active provider yields seqno 0 with a trace of just
`getState`; the active provider yields 5 with the two-call trace. -/
theorem claim9_seqno_state_gate_witness :
    getSeqnoT pInactive = (Except.ok 0, [PCall.getState]) ∧
      getSeqnoT pActive = (Except.ok 5, [PCall.getState, PCall.get "seqno"]) := by
  constructor
  · exact (claim9_seqno_state_gate pInactive
      { balance := 100, state := { type := "uninitialized" } } rfl).1 (by decide)
  · exact (claim9_seqno_state_gate pActive
      { balance := 100, state := { type := "active" } } rfl).2
      { stack := [5] } 5 [] rfl rfl rfl

/-- The transport error used by the concrete failure examples. -/
def transportBoom : JsError := { kind := ErrKind.transport, message := "boom" }

/-- A provider all of whose operations fail with a transport error. -/
def pTransportFail : Provider :=
  { getStateResp := Except.error transportBoom
    getResp := fun _ _ => Except.error transportBoom
    externalResp := fun _ => Except.error transportBoom }

/-- A provider with an active contract whose `get` method fails with a
transport error. -/
def pActiveGetFail : Provider :=
  { getStateResp := Except.ok { balance := 0, state := { type := "active" } }
    getResp := fun _ _ => Except.error transportBoom
    externalResp := fun _ => Except.ok () }

/-- C3 counterexample: a provider transport failure ("boom") inside
`getBalance` is NOT propagated unchanged — the caller receives a fresh
generic error with the message "Failed to get balance: boom", not the
original transport error. -/
theorem claim3_counterexample :
    (getBalanceT pTransportFail).1 ≠ Except.error transportBoom := by
  simp [getBalanceT, pTransportFail, wrapErr, transportBoom]

/-- C3 (amended): a transport error raised by the provider inside
`getBalance`, `getSeqno` or `send` is surfaced to the caller as a failure
wrapped with context — a new generic error whose message prefixes the
method's context string to the original message — after exactly one call to
the failing provider operation (never retried) and never suppressed. -/
theorem claim3_transport_wrapped (p : Provider) (e : JsError) (message : Cell) :
    (p.getStateResp = Except.error e →
      getBalanceT p = (Except.error (wrapErr "Failed to get balance: " e), [PCall.getState]) ∧
      getSeqnoT p = (Except.error (wrapErr "Failed to get seqno: " e), [PCall.getState])) ∧
    (∀ st, p.getStateResp = Except.ok st → st.state.type = "active" →
      p.getResp "seqno" [] = Except.error e →
      getSeqnoT p =
        (Except.error (wrapErr "Failed to get seqno: " e),
          [PCall.getState, PCall.get "seqno"])) ∧
    (p.externalResp message = Except.error e →
      sendT p message =
        (Except.error (wrapErr "Failed to send message: " e), [PCall.externalMsg])) := by
  refine ⟨fun hs => ⟨?_, ?_⟩, fun st hs ha hg => ?_, fun hx => ?_⟩
  · simp [getBalanceT, hs]
  · simp [getSeqnoT, hs]
  · simp [getSeqnoT, hs, ha, hg]
  · simp [sendT, hx]

/-- C3 (amended) witness: each method on the failing providers returns the
wrapped generic error with a single-call trace. -/
theorem claim3_transport_wrapped_witness :
    getBalanceT pTransportFail =
      (Except.error { kind := ErrKind.generic, message := "Failed to get balance: boom" },
        [PCall.getState]) ∧
    getSeqnoT pTransportFail =
      (Except.error { kind := ErrKind.generic, message := "Failed to get seqno: boom" },
        [PCall.getState]) ∧
    getSeqnoT pActiveGetFail =
      (Except.error { kind := ErrKind.generic, message := "Failed to get seqno: boom" },
        [PCall.getState, PCall.get "seqno"]) ∧
    sendT pTransportFail (Cell.mk [] []) =
      (Except.error { kind := ErrKind.generic, message := "Failed to send message: boom" },
        [PCall.externalMsg]) := by
  have h := claim3_transport_wrapped pTransportFail transportBoom (Cell.mk [] [])
  have hA := claim3_transport_wrapped pActiveGetFail transportBoom (Cell.mk [] [])
  refine ⟨?_, ?_, ?_, ?_⟩
  · simpa [wrapErr, transportBoom] using (h.1 rfl).1
  · simpa [wrapErr, transportBoom] using (h.1 rfl).2
  · simpa [wrapErr, transportBoom] using
      hA.2.1 { balance := 0, state := { type := "active" } } rfl rfl rfl
  · simpa [wrapErr, transportBoom] using h.2.2 rfl
